import Mathlib

/-!
Verification of the async request-state coordinator extracted from the
repository's exercises:

* `asyncReducer` and `useAsync`, together with the caching `asyncCallback`
  and `addToCache` of `PokemonInfo`, from `src/exercises/04.js`;
* `pokemonReducer` from `src/exercises-final/02.js`.

The reducers are pure functions over a state record and an action record
whose `type` field is a string; the `default` branch of the JS `switch`
throws, which we embed as `Except.error` carrying the thrown message.
The stateful behaviour of the component (cache, in-flight promises,
effect re-runs) is embedded as an explicit `Coordinator` record with
`request` and `settle` step functions below.
-/

set_option autoImplicit false
set_option linter.unusedVariables false

universe u v

variable {D : Type u} {E : Type v}

/-- State record of `useAsync`'s reducer in `04.js`:
`{loading, data, error}` with `null` embedded as `none`. -/
structure AsyncState (D : Type u) (E : Type v) where
  loading : Bool
  data : Option D
  error : Option E
  deriving DecidableEq

/-- Action record dispatched to `asyncReducer`: a string `type` plus the
optional `data` / `error` payload fields (absent fields are `none`). -/
structure AsyncAction (D : Type u) (E : Type v) where
  type : String
  data : Option D
  error : Option E
  deriving DecidableEq

/-- `asyncReducer` from `src/exercises/04.js` lines 69-84: a `switch` on
`action.type` handling `LOADING`, `LOADED` and `ERROR`; the `default`
branch throws `Unhandled action type`, embedded as `Except.error`. -/
def asyncReducer (state : AsyncState D E) (action : AsyncAction D E) :
    Except String (AsyncState D E) :=
  if action.type = "LOADING" then
    Except.ok (AsyncState.mk true none none)
  else if action.type = "LOADED" then
    Except.ok (AsyncState.mk false action.data none)
  else if action.type = "ERROR" then
    Except.ok (AsyncState.mk false none action.error)
  else
    Except.error ("Unhandled action type: " ++ action.type)

/-- State record of `pokemonReducer` in `src/exercises-final/02.js`:
identical to `AsyncState` except the payload field is named `pokemon`. -/
structure PokemonState (D : Type u) (E : Type v) where
  loading : Bool
  pokemon : Option D
  error : Option E
  deriving DecidableEq

/-- Action record dispatched to `pokemonReducer`, payload field `pokemon`. -/
structure PokemonAction (D : Type u) (E : Type v) where
  type : String
  pokemon : Option D
  error : Option E
  deriving DecidableEq

/-- `pokemonReducer` from `src/exercises-final/02.js` lines 4-19. -/
def pokemonReducer (state : PokemonState D E) (action : PokemonAction D E) :
    Except String (PokemonState D E) :=
  if action.type = "LOADING" then
    Except.ok (PokemonState.mk true none none)
  else if action.type = "LOADED" then
    Except.ok (PokemonState.mk false action.pokemon none)
  else if action.type = "ERROR" then
    Except.ok (PokemonState.mk false none action.error)
  else
    Except.error ("Unhandled action type: " ++ action.type)

/-- The field renaming `pokemon` into `data` on states. -/
def stateOfPokemon (s : PokemonState D E) : AsyncState D E :=
  AsyncState.mk s.loading s.pokemon s.error

/-- The field renaming `pokemon` into `data` on actions. -/
def actionOfPokemon (a : PokemonAction D E) : AsyncAction D E :=
  AsyncAction.mk a.type a.pokemon a.error

/-- The action types handled by the reducers' `switch` statements. -/
def handledType (t : String) : Prop :=
  t = "LOADING" ∨ t = "LOADED" ∨ t = "ERROR"

instance (t : String) : Decidable (handledType t) := by
  unfold handledType; infer_instance

/-- Representation invariant of the reducer states: a loading state has no
payload, and a success payload and an error payload never coexist. -/
def stateInv (s : AsyncState D E) : Prop :=
  (s.loading = true → s.data = none ∧ s.error = none) ∧
  (s.data = none ∨ s.error = none)

/-- Initial reducer state of `useAsync` in `04.js`:
`{data: null, loading: false, error: null}`. -/
def initialAsyncState : AsyncState D E :=
  AsyncState.mk false none none

/-- Field-by-field lookup in the cache object of `PokemonInfo` in `04.js`
(`cache[pokemonName]`), embedded as an association list keyed by strings. -/
def cacheLookup (c : List (String × D)) (k : String) : Option D :=
  match c with
  | [] => none
  | p :: rest => if p.1 = k then some p.2 else cacheLookup rest k

/-- The object spread update of `addToCache` in `04.js`
(`setCache(\x7b...cache, [pokemonName]: pokemonData\x7d)`): the first entry
for the key is overwritten in place, a fresh key is appended. -/
def cacheInsert (c : List (String × D)) (k : String) (d : D) :
    List (String × D) :=
  match c with
  | [] => [(k, d)]
  | p :: rest => if p.1 = k then (k, d) :: rest else p :: cacheInsert rest k d

/-- `React.useReducer`'s dispatch specialised to `asyncReducer`: the
reducer's exceptional branch is unreachable for every action the
coordinator dispatches, so the state is kept unchanged there. -/
def dispatch (s : AsyncState D E) (a : AsyncAction D E) : AsyncState D E :=
  match asyncReducer s a with
  | Except.ok s2 => s2
  | Except.error _ => s

/-- JS truthiness of a payload value. The cached branch of
`asyncCallback` in `04.js` is guarded by `if (cachedPokemon)`, a
truthiness test: a cached falsy payload (for example the `null` that
`fetchPokemon` resolves with for an unknown name) is treated like a
cache miss. -/
class JsValue (D : Type u) where
  truthy : D → Bool

/-- JS number truthiness for the `Nat` payloads of the concrete
scenarios: `0` is falsy, every other number is truthy. -/
instance : JsValue Nat :=
  JsValue.mk (fun n => n != 0)

/-- One in-flight promise chain created by the effect in `useAsync`
(`04.js` lines 92-102): the key it was issued for, the cache object the
`asyncCallback` closure captured for `addToCache`, whether the callback
took the cached `Promise.resolve` path, and the value or error the
underlying promise will eventually settle with. -/
structure Attempt (D : Type u) (E : Type v) where
  key : String
  capturedCache : List (String × D)
  fromCache : Bool
  outcome : Except E D

/-- The mutable picture of one `PokemonInfo` component from `04.js`: the
`cache` state, the `useAsync` reducer state, the pending promise chains in
issue order, the log of keys passed to `fetchPokemon` (in call order), and
the dependency pair `(pokemonName, cache)` of the `asyncCallback` the
effect last ran for — `useCallback` recreates `asyncCallback` exactly when
`pokemonName` or `cache` changes, and the `[asyncCallback]` dependency of
`React.useEffect` re-runs the effect exactly then. -/
structure Coordinator (D : Type u) (E : Type v) where
  cache : List (String × D)
  state : AsyncState D E
  pending : List (Attempt D E)
  fetchLog : List String
  lastDeps : Option (String × List (String × D))

/-- The freshly mounted component: empty cache, initial reducer state, no
pending promise, no fetch issued, effect not yet run. -/
def Coordinator.init : Coordinator D E :=
  Coordinator.mk [] initialAsyncState [] [] none

/-- One render of `PokemonInfo` with `pokemonName = key`, where `outcome`
is what the underlying `fetchPokemon(key)` promise would settle with. If
the `asyncCallback` dependencies `(key, cache)` are unchanged since the
effect last ran, the effect does not re-run and nothing happens. Otherwise
the effect dispatches `LOADING` and invokes `asyncCallback`: when
`if (cachedPokemon)` finds a truthy cached payload it returns
`Promise.resolve(cachedPokemon)` without fetching; otherwise (missing or
falsy cached payload) it calls `fetchPokemon(key)`, whose `then` will
also run `addToCache` over the cache captured by the closure. -/
def Coordinator.request [DecidableEq D] [JsValue D] (c : Coordinator D E)
    (key : String) (outcome : Except E D) : Coordinator D E :=
  if c.lastDeps = some (key, c.cache) then c
  else
    match cacheLookup c.cache key with
    | some d =>
      if JsValue.truthy d then
        Coordinator.mk c.cache
          (dispatch c.state (AsyncAction.mk "LOADING" none none))
          (c.pending ++ [Attempt.mk key c.cache true (Except.ok d)])
          c.fetchLog
          (some (key, c.cache))
      else
        Coordinator.mk c.cache
          (dispatch c.state (AsyncAction.mk "LOADING" none none))
          (c.pending ++ [Attempt.mk key c.cache false outcome])
          (c.fetchLog ++ [key])
          (some (key, c.cache))
    | none =>
      Coordinator.mk c.cache
        (dispatch c.state (AsyncAction.mk "LOADING" none none))
        (c.pending ++ [Attempt.mk key c.cache false outcome])
        (c.fetchLog ++ [key])
        (some (key, c.cache))

/-- The `i`-th pending promise settles. On success the `then` chain of
`asyncCallback` runs `addToCache` over its captured cache (unless the
value came from the cache already) and `useAsync` dispatches `LOADED`;
on rejection `useAsync` dispatches `ERROR`. The completion handlers run
unconditionally — `04.js` checks nothing about the currently active key. -/
def Coordinator.settle [DecidableEq D] (c : Coordinator D E) (i : Nat) :
    Coordinator D E :=
  match c.pending.get? i with
  | none => c
  | some a =>
    match a.outcome with
    | Except.ok d =>
      Coordinator.mk
        (if a.fromCache then c.cache else cacheInsert a.capturedCache a.key d)
        (dispatch c.state (AsyncAction.mk "LOADED" (some d) none))
        (c.pending.eraseIdx i)
        c.fetchLog
        c.lastDeps
    | Except.error e =>
      Coordinator.mk c.cache
        (dispatch c.state (AsyncAction.mk "ERROR" none (some e)))
        (c.pending.eraseIdx i)
        c.fetchLog
        c.lastDeps

/-- Claim C2 witness scenario: a mounted component whose cache already
holds the payload `5` for key `"a"`. -/
def cachedHitW : Coordinator Nat String :=
  Coordinator.mk [("a", 5)] initialAsyncState [] [] none

/-- Claim C2 counterexample scenario: a mounted component whose cache
holds the falsy payload `0` for key `"z"` (as happens when `fetchPokemon`
resolves with `null` for an unknown name and `addToCache` stores it). -/
def falsyHitW : Coordinator Nat String :=
  Coordinator.mk [("z", 0)] initialAsyncState [] [] none

/-- Claim C1 counterexample, step 1: a fresh component requests `"a"`,
whose fetch will eventually succeed with payload `1`. -/
def staleStep1 : Coordinator Nat String :=
  Coordinator.init.request "a" (Except.ok 1)

/-- Claim C1 counterexample, step 2: before `"a"` settles, the component
requests `"b"`, whose fetch will eventually succeed with payload `2`. -/
def staleStep2 : Coordinator Nat String :=
  staleStep1.request "b" (Except.ok 2)

/-- Claim C1 counterexample, step 3: the stale `"a"` promise settles while
`"b"` is the active key and still in flight. -/
def staleStep3 : Coordinator Nat String :=
  staleStep2.settle 0

/-- Claim C4 counterexample, step 1: a fresh component requests `"a"` and
the fetch will reject with `"boom"`. -/
def erroredStep1 : Coordinator Nat String :=
  Coordinator.init.request "a" (Except.error "boom")

/-- Claim C4 counterexample, step 2: the rejected promise settles. -/
def erroredStep2 : Coordinator Nat String :=
  erroredStep1.settle 0

/-- Claim C4 counterexample, step 3: the same key is requested again, with
a resolver that would now succeed. -/
def erroredStep3 : Coordinator Nat String :=
  erroredStep2.request "a" (Except.ok 5)

/-- Claim C4 witness: fetch `"a"` rejects while a request for `"b"` is
also in flight; after the rejection settles, requesting `"a"` again does
re-invoke the resolver, because the active dependencies moved to `"b"`. -/
def erroredRetryW : Coordinator Nat String :=
  (Coordinator.init.request "a" (Except.error "boom")).request "b" (Except.ok 2)

/-- Claim C8 counterexample, step 1: requests for `"a"` and `"b"` are both
in flight; each `asyncCallback` closure captured the then-empty cache. -/
def lostStep1 : Coordinator Nat String :=
  (Coordinator.init.request "a" (Except.ok 1)).request "b" (Except.ok 2)

/-- Claim C8 counterexample, step 2: `"a"`-s fetch succeeds and
`addToCache` stores `("a", 1)`. -/
def lostStep2 : Coordinator Nat String :=
  lostStep1.settle 0

/-- Claim C8 counterexample, step 3: `"b"`-s fetch succeeds; its
`addToCache` spreads the stale captured cache, dropping `("a", 1)`. -/
def lostStep3 : Coordinator Nat String :=
  lostStep2.settle 0

/-- Claim C8 witness input: one fetch for `"a"` in flight over the empty
cache, so its closure snapshot is the current cache. -/
def frameW : Coordinator Nat String :=
  Coordinator.init.request "a" (Except.ok 1)

/-- Claim C8 witness input: one rejecting fetch for `"a"` in flight. -/
def frameErrW : Coordinator Nat String :=
  Coordinator.init.request "a" (Except.error "x")

theorem dispatch_loading (s : AsyncState D E) :
    dispatch s (AsyncAction.mk "LOADING" none none) =
      AsyncState.mk true none none := rfl

theorem dispatch_loaded (s : AsyncState D E) (d : D) :
    dispatch s (AsyncAction.mk "LOADED" (some d) none) =
      AsyncState.mk false (some d) none := rfl

theorem dispatch_error (s : AsyncState D E) (e : E) :
    dispatch s (AsyncAction.mk "ERROR" none (some e)) =
      AsyncState.mk false none (some e) := rfl

/-- Lookup after an insert at a different key is unchanged. -/
theorem cacheLookup_cacheInsert_ne (c : List (String × D)) (k q : String)
    (d : D) (h : q ≠ k) :
    cacheLookup (cacheInsert c k d) q = cacheLookup c q := by
  have hk : ¬ k = q := fun h2 => h h2.symm
  induction c with
  | nil => simp [cacheInsert, cacheLookup, hk]
  | cons p rest ih =>
    by_cases hp : p.1 = k
    · simp [cacheInsert, hp, cacheLookup, hk]
    · simp [cacheInsert, hp, cacheLookup, ih]

/-- Unfolding equation for a request whose callback dependencies changed
and whose key holds a truthy cached payload. -/
theorem request_cached_eq [DecidableEq D] [JsValue D] (c : Coordinator D E)
    (k : String) (p : D) (o : Except E D)
    (hc : cacheLookup c.cache k = some p) (ht : JsValue.truthy p = true)
    (hfresh : c.lastDeps ≠ some (k, c.cache)) :
    c.request k o = Coordinator.mk c.cache (AsyncState.mk true none none)
      (c.pending ++ [Attempt.mk k c.cache true (Except.ok p)])
      c.fetchLog (some (k, c.cache)) := by
  unfold Coordinator.request
  rw [if_neg hfresh, hc]
  simp only [ht, if_true]
  rw [dispatch_loading]

/-- Unfolding equation for a request whose callback dependencies changed
and whose key holds a falsy cached payload: the truthiness guard
`if (cachedPokemon)` fails and `fetchPokemon` is called anyway. -/
theorem request_cached_falsy_eq [DecidableEq D] [JsValue D]
    (c : Coordinator D E) (k : String) (p : D) (o : Except E D)
    (hc : cacheLookup c.cache k = some p) (ht : JsValue.truthy p = false)
    (hfresh : c.lastDeps ≠ some (k, c.cache)) :
    c.request k o = Coordinator.mk c.cache (AsyncState.mk true none none)
      (c.pending ++ [Attempt.mk k c.cache false o])
      (c.fetchLog ++ [k]) (some (k, c.cache)) := by
  unfold Coordinator.request
  rw [if_neg hfresh, hc]
  simp only [ht, Bool.false_eq_true, if_false]
  rw [dispatch_loading]

/-- Unfolding equation for a request whose callback dependencies changed
and whose key is not cached: `fetchPokemon` is called. -/
theorem request_uncached_eq [DecidableEq D] [JsValue D] (c : Coordinator D E)
    (k : String) (o : Except E D) (hc : cacheLookup c.cache k = none)
    (hfresh : c.lastDeps ≠ some (k, c.cache)) :
    c.request k o = Coordinator.mk c.cache (AsyncState.mk true none none)
      (c.pending ++ [Attempt.mk k c.cache false o])
      (c.fetchLog ++ [k]) (some (k, c.cache)) := by
  unfold Coordinator.request
  rw [if_neg hfresh, hc, dispatch_loading]

/-- Unfolding equation for settling a successful attempt. -/
theorem settle_ok_eq [DecidableEq D] (c : Coordinator D E) (i : Nat)
    (a : Attempt D E) (d : D) (hget : c.pending.get? i = some a)
    (hout : a.outcome = Except.ok d) :
    c.settle i = Coordinator.mk
      (if a.fromCache then c.cache else cacheInsert a.capturedCache a.key d)
      (AsyncState.mk false (some d) none)
      (c.pending.eraseIdx i) c.fetchLog c.lastDeps := by
  unfold Coordinator.settle
  simp only [hget, hout]
  rw [dispatch_loaded]

/-- Unfolding equation for settling a rejected attempt. -/
theorem settle_error_eq [DecidableEq D] (c : Coordinator D E) (i : Nat)
    (a : Attempt D E) (e : E) (hget : c.pending.get? i = some a)
    (hout : a.outcome = Except.error e) :
    c.settle i = Coordinator.mk c.cache (AsyncState.mk false none (some e))
      (c.pending.eraseIdx i) c.fetchLog c.lastDeps := by
  unfold Coordinator.settle
  simp only [hget, hout]
  rw [dispatch_error]

/-- Claim C6: the transition function is total over the action types
`LOADING`, `LOADED`, `ERROR` (it returns a state, never an error), and it
throws `Unhandled action type` on every action type outside this set. -/
theorem reducer_totality (s : AsyncState D E) (a : AsyncAction D E) :
    (handledType a.type → ∃ s2, asyncReducer s a = Except.ok s2) ∧
    (¬ handledType a.type →
      asyncReducer s a = Except.error ("Unhandled action type: " ++ a.type)) := by
  constructor
  · rintro (h | h | h) <;> simp [asyncReducer, h]
  · intro h
    rw [handledType, not_or, not_or] at h
    simp [asyncReducer, h.1, h.2.1, h.2.2]

/-- Claim C6 witness: concrete instances of both halves of
`reducer_totality`. -/
theorem reducer_totality_witness :
    (handledType "LOADING" ∧
      ∃ s2, asyncReducer (initialAsyncState : AsyncState Nat String)
        (AsyncAction.mk "LOADING" none none) = Except.ok s2) ∧
    (¬ handledType "BOGUS" ∧
      asyncReducer (initialAsyncState : AsyncState Nat String)
        (AsyncAction.mk "BOGUS" none none) =
        Except.error ("Unhandled action type: " ++ "BOGUS")) := by
  refine ⟨⟨by decide, ?_⟩, ⟨by decide, ?_⟩⟩
  · exact (reducer_totality initialAsyncState (AsyncAction.mk "LOADING" none none)).1
      (by decide)
  · exact (reducer_totality initialAsyncState (AsyncAction.mk "BOGUS" none none)).2
      (by decide)

/-- Claim C7: for every prior state, the `LOADING` transition produces
`{loading: true, data: null, error: null}`, clearing any previous payload,
in both `asyncReducer` and `pokemonReducer`. -/
theorem loading_clears_payloads (s : AsyncState D E) (ps : PokemonState D E)
    (a : AsyncAction D E) (pa : PokemonAction D E)
    (ha : a.type = "LOADING") (hpa : pa.type = "LOADING") :
    asyncReducer s a = Except.ok (AsyncState.mk true none none) ∧
    pokemonReducer ps pa = Except.ok (PokemonState.mk true none none) := by
  constructor
  · simp [asyncReducer, ha]
  · simp [pokemonReducer, hpa]

/-- Claim C7 witness: the `LOADING` transition at a concrete loaded state
and a concrete errored state. -/
theorem loading_clears_payloads_witness :
    (AsyncAction.mk "LOADING" none none : AsyncAction Nat String).type = "LOADING" ∧
    (PokemonAction.mk "LOADING" none none : PokemonAction Nat String).type = "LOADING" ∧
    asyncReducer (AsyncState.mk false (some 7) none : AsyncState Nat String)
      (AsyncAction.mk "LOADING" none none) =
      Except.ok (AsyncState.mk true none none) ∧
    pokemonReducer (PokemonState.mk false none (some "boom") : PokemonState Nat String)
      (PokemonAction.mk "LOADING" none none) =
      Except.ok (PokemonState.mk true none none) := by
  have h := loading_clears_payloads
    (AsyncState.mk false (some 7) none : AsyncState Nat String)
    (PokemonState.mk false none (some "boom") : PokemonState Nat String)
    (AsyncAction.mk "LOADING" none none)
    (PokemonAction.mk "LOADING" none none) rfl rfl
  exact ⟨rfl, rfl, h.1, h.2⟩

/-- Claim C9: on handled actions the next state depends only on the action,
not on the prior state; consequently every state the reducer can produce,
as well as the initial state, satisfies the representation invariant
(`loading` excludes payloads, `data` and `error` never both populated). -/
theorem reducer_state_independent :
    (∀ (a : AsyncAction D E) (s1 s2 : AsyncState D E), handledType a.type →
      asyncReducer s1 a = asyncReducer s2 a) ∧
    (∀ (s : AsyncState D E) (a : AsyncAction D E) (s2 : AsyncState D E),
      asyncReducer s a = Except.ok s2 → stateInv s2) ∧
    stateInv (initialAsyncState : AsyncState D E) := by
  refine ⟨?_, ?_, ?_⟩
  · intro a s1 s2 _
    unfold asyncReducer
    rfl
  · intro s a s2 h
    unfold asyncReducer at h
    split_ifs at h <;> injection h with h2 <;> rw [← h2] <;>
      simp [stateInv]
  · exact ⟨fun h => by simp [initialAsyncState] at h, Or.inl rfl⟩

/-- Claim C9 witness: state-independence and the invariant at concrete
states and a concrete handled action. -/
theorem reducer_state_independent_witness :
    handledType "LOADED" ∧
    asyncReducer (AsyncState.mk true none none : AsyncState Nat String)
      (AsyncAction.mk "LOADED" (some 3) none) =
      asyncReducer (AsyncState.mk false none (some "x"))
        (AsyncAction.mk "LOADED" (some 3) none) ∧
    asyncReducer (AsyncState.mk true none none : AsyncState Nat String)
      (AsyncAction.mk "LOADED" (some 3) none) =
      Except.ok (AsyncState.mk false (some 3) none) ∧
    stateInv (AsyncState.mk false (some 3) none : AsyncState Nat String) := by
  refine ⟨by decide, ?_, rfl, ?_⟩
  · exact reducer_state_independent.1 (AsyncAction.mk "LOADED" (some 3) none)
      (AsyncState.mk true none none) (AsyncState.mk false none (some "x"))
      (by decide)
  · exact reducer_state_independent.2.1
      (AsyncState.mk true none none) (AsyncAction.mk "LOADED" (some 3) none)
      (AsyncState.mk false (some 3) none) rfl

/-- Claim C2 counterexample: with `("a", 5)` cached, `request "a"` does
not return `Loaded{data: 5}` — the effect dispatches `LOADING`
unconditionally and the cached payload only arrives when the resolved
promise settles a microtask later; and with the falsy payload `0` cached
for `"z"`, `request "z"` invokes the underlying fetch after all, because
the truthiness guard `if (cachedPokemon)` rejects the cached value. -/
theorem request_cached_returns_loading_cex :
    cacheLookup cachedHitW.cache "a" = some 5 ∧
    (cachedHitW.request "a" (Except.ok 5)).state =
      AsyncState.mk true none none ∧
    (cachedHitW.request "a" (Except.ok 5)).state ≠
      AsyncState.mk false (some 5) none ∧
    cacheLookup falsyHitW.cache "z" = some 0 ∧
    (falsyHitW.request "z" (Except.ok 3)).fetchLog = ["z"] := by
  refine ⟨rfl, rfl, by decide, rfl, rfl⟩

/-- Claim C2 as amended: for a key holding a truthy cached payload `p`, a
request with changed callback dependencies transitions to `Loading`
(never synchronously to `Loaded`) without calling `fetchPokemon`, and its
attempt settles to `Loaded{data: p}` leaving the cache unchanged; a falsy
cached payload fails the `if (cachedPokemon)` guard and is re-fetched. -/
theorem request_cached_hit [DecidableEq D] [JsValue D] (c : Coordinator D E)
    (k : String) (p : D) (o : Except E D)
    (hc : cacheLookup c.cache k = some p)
    (hfresh : c.lastDeps ≠ some (k, c.cache)) :
    (JsValue.truthy p = true →
      (c.request k o).state = AsyncState.mk true none none ∧
      (c.request k o).fetchLog = c.fetchLog ∧
      ((c.request k o).settle c.pending.length).state =
        AsyncState.mk false (some p) none ∧
      ((c.request k o).settle c.pending.length).cache = c.cache) ∧
    (JsValue.truthy p = false →
      (c.request k o).fetchLog = c.fetchLog ++ [k]) := by
  constructor
  · intro ht
    have hreq := request_cached_eq c k p o hc ht hfresh
    refine ⟨by rw [hreq], by rw [hreq], ?_, ?_⟩ <;>
      rw [hreq] <;>
      unfold Coordinator.settle <;>
      simp [List.get?_eq_getElem?, List.getElem?_concat_length, dispatch_loaded]
  · intro ht
    rw [request_cached_falsy_eq c k p o hc ht hfresh]

/-- Claim C2 witness: the amended theorem at the truthy payload `5`
cached for `"a"` and at the falsy payload `0` cached for `"z"`. -/
theorem request_cached_hit_witness :
    cacheLookup cachedHitW.cache "a" = some 5 ∧
    cachedHitW.lastDeps ≠ some ("a", [("a", 5)]) ∧
    JsValue.truthy (5 : Nat) = true ∧
    (cachedHitW.request "a" (Except.ok 5)).state =
      AsyncState.mk true none none ∧
    (cachedHitW.request "a" (Except.ok 5)).fetchLog = [] ∧
    ((cachedHitW.request "a" (Except.ok 5)).settle 0).state =
      AsyncState.mk false (some 5) none ∧
    cacheLookup falsyHitW.cache "z" = some 0 ∧
    JsValue.truthy (0 : Nat) = false ∧
    (falsyHitW.request "z" (Except.ok 3)).fetchLog = [] ++ ["z"] := by
  have h := request_cached_hit cachedHitW "a" 5 (Except.ok 5) rfl (by decide)
  have h2 := request_cached_hit falsyHitW "z" 0 (Except.ok 3) rfl (by decide)
  exact ⟨rfl, by decide, rfl, (h.1 rfl).1, (h.1 rfl).2.1, (h.1 rfl).2.2.1,
    rfl, rfl, h2.2 rfl⟩

/-- Claim C3: a request for an uncached key with changed callback
dependencies dispatches `LOADING` at once, invokes `fetchPokemon` exactly
once with that key, and a repeated identical request while the attempt is
in flight is a no-op (no second invocation). -/
theorem request_uncached_loads [DecidableEq D] [JsValue D] (c : Coordinator D E)
    (k : String) (o o2 : Except E D) (hc : cacheLookup c.cache k = none)
    (hfresh : c.lastDeps ≠ some (k, c.cache)) :
    (c.request k o).state = AsyncState.mk true none none ∧
    (c.request k o).fetchLog = c.fetchLog ++ [k] ∧
    (c.request k o).request k o2 = c.request k o := by
  have hreq : c.request k o = Coordinator.mk c.cache
      (AsyncState.mk true none none)
      (c.pending ++ [Attempt.mk k c.cache false o])
      (c.fetchLog ++ [k]) (some (k, c.cache)) := by
    unfold Coordinator.request
    rw [if_neg hfresh, hc, dispatch_loading]
  refine ⟨by rw [hreq], by rw [hreq], ?_⟩
  rw [hreq]
  unfold Coordinator.request
  simp

/-- Claim C3 witness: a fresh coordinator fetching key `"a"`. -/
theorem request_uncached_loads_witness :
    cacheLookup (Coordinator.init : Coordinator Nat String).cache "a" = none ∧
    (Coordinator.init : Coordinator Nat String).lastDeps ≠ some ("a", []) ∧
    ((Coordinator.init : Coordinator Nat String).request "a"
        (Except.ok 1)).state = AsyncState.mk true none none ∧
    ((Coordinator.init : Coordinator Nat String).request "a"
        (Except.ok 1)).fetchLog = ["a"] ∧
    (((Coordinator.init : Coordinator Nat String).request "a"
        (Except.ok 1)).request "a" (Except.ok 2)) =
      (Coordinator.init : Coordinator Nat String).request "a" (Except.ok 1) := by
  have h := request_uncached_loads (Coordinator.init : Coordinator Nat String)
    "a" (Except.ok 1) (Except.ok 2) rfl (by decide)
  exact ⟨rfl, by decide, h.1, h.2.1, h.2.2⟩

/-- Claim C1 counterexample: after `request "a"` then `request "b"`, the
state is `Loading` for `"b"`; when the stale `"a"` promise then settles,
the state becomes `Loaded` with `"a"`-s payload `1` even though `"b"` is
the active key and its attempt is still pending — the stale result IS
applied, the code has no active-key check. -/
theorem stale_result_applied_cex :
    staleStep2.lastDeps = some ("b", []) ∧
    staleStep2.state = AsyncState.mk true none none ∧
    staleStep3.state = AsyncState.mk false (some 1) none ∧
    staleStep3.pending.length = 1 := by
  refine ⟨rfl, rfl, rfl, rfl⟩

/-- Claim C1 as amended: the completion handlers of `useAsync` run
unconditionally, so settling a successful attempt sets the state to
`Loaded` with that attempt's payload even when the attempt's key differs
from the currently active key. -/
theorem settle_applies_stale_result [DecidableEq D] (c : Coordinator D E)
    (i : Nat) (a : Attempt D E) (d : D) (k : String)
    (cc : List (String × D)) (hget : c.pending.get? i = some a)
    (hout : a.outcome = Except.ok d) (hcur : c.lastDeps = some (k, cc))
    (hstale : a.key ≠ k) : (c.settle i).state = AsyncState.mk false (some d) none := by
  unfold Coordinator.settle
  simp only [hget, hout]
  exact dispatch_loaded c.state d

/-- Claim C1 witness: the amended theorem applied to the concrete stale
scenario of the counterexample. -/
theorem settle_applies_stale_result_witness :
    staleStep2.pending.get? 0 =
      some (Attempt.mk "a" [] false (Except.ok 1)) ∧
    (Attempt.mk "a" ([] : List (String × Nat)) false
        (Except.ok 1 : Except String Nat)).outcome = Except.ok 1 ∧
    staleStep2.lastDeps = some ("b", []) ∧
    "a" ≠ "b" ∧
    (staleStep2.settle 0).state = AsyncState.mk false (some 1) none := by
  refine ⟨rfl, rfl, rfl, by decide, ?_⟩
  exact settle_applies_stale_result staleStep2 0
    (Attempt.mk "a" [] false (Except.ok 1)) 1 "b" [] rfl rfl rfl (by decide)

/-- Claim C5: a resolver rejection is captured, never rethrown: the
`ERROR` transition of the reducer always succeeds and carries the error
value verbatim, and settling a rejected attempt is a total step whose
resulting state is `Errored` with that same error value. -/
theorem rejection_captured [DecidableEq D] (s : AsyncState D E) (e : E)
    (c : Coordinator D E) (i : Nat) (a : Attempt D E)
    (hget : c.pending.get? i = some a) (hout : a.outcome = Except.error e) :
    asyncReducer s (AsyncAction.mk "ERROR" none (some e)) =
      Except.ok (AsyncState.mk false none (some e)) ∧
    (c.settle i).state = AsyncState.mk false none (some e) := by
  refine ⟨rfl, ?_⟩
  unfold Coordinator.settle
  simp only [hget, hout]
  exact dispatch_error c.state e

/-- Claim C5 witness: a rejected fetch for `"a"` with error `"boom"`. -/
theorem rejection_captured_witness :
    (Coordinator.init.request "a" (Except.error "boom") :
        Coordinator Nat String).pending.get? 0 =
      some (Attempt.mk "a" [] false (Except.error "boom")) ∧
    (Attempt.mk "a" ([] : List (String × Nat)) false
        (Except.error "boom")).outcome = Except.error "boom" ∧
    asyncReducer (initialAsyncState : AsyncState Nat String)
      (AsyncAction.mk "ERROR" none (some "boom")) =
      Except.ok (AsyncState.mk false none (some "boom")) ∧
    ((Coordinator.init.request "a" (Except.error "boom") :
        Coordinator Nat String).settle 0).state =
      AsyncState.mk false none (some "boom") := by
  have h := rejection_captured (initialAsyncState : AsyncState Nat String)
    "boom" (Coordinator.init.request "a" (Except.error "boom")) 0
    (Attempt.mk "a" [] false (Except.error "boom")) rfl rfl
  exact ⟨rfl, rfl, h.1, h.2⟩

/-- Claim C4 counterexample: after the rejection the state is `Errored`
and the failure was not cached, but an identical subsequent request is a
no-op — the memoized callback identity `("a", cache)` is unchanged, the
effect does not re-run and `fetchPokemon` is NOT re-invoked. -/
theorem errored_retry_cex :
    erroredStep2.state = AsyncState.mk false none (some "boom") ∧
    cacheLookup erroredStep2.cache "a" = none ∧
    erroredStep3 = erroredStep2 ∧
    erroredStep3.fetchLog = ["a"] := by
  refine ⟨rfl, rfl, rfl, rfl⟩

/-- Claim C4 as amended: a rejection transitions to `Errored` and leaves
the cache unpopulated, and a subsequent request for the key re-invokes
the resolver provided its callback dependencies `(key, cache)` changed
since the last effect run (for example after requesting another key in
between); a repeat with unchanged dependencies is a no-op. -/
theorem errored_not_cached_retry [DecidableEq D] [JsValue D] (c : Coordinator D E)
    (i : Nat) (a : Attempt D E) (e : E) (hget : c.pending.get? i = some a)
    (hout : a.outcome = Except.error e) :
    (c.settle i).state = AsyncState.mk false none (some e) ∧
    (c.settle i).cache = c.cache ∧
    (∀ (k : String) (o : Except E D),
      cacheLookup (c.settle i).cache k = none →
      (c.settle i).lastDeps ≠ some (k, (c.settle i).cache) →
      ((c.settle i).request k o).fetchLog = (c.settle i).fetchLog ++ [k]) := by
  have hs := settle_error_eq c i a e hget hout
  refine ⟨by rw [hs], by rw [hs], ?_⟩
  intro k o hk hfresh
  rw [request_uncached_eq (c.settle i) k o hk hfresh]

/-- Claim C4 witness: the amended theorem at the concrete scenario. -/
theorem errored_not_cached_retry_witness :
    erroredRetryW.pending.get? 0 =
      some (Attempt.mk "a" [] false (Except.error "boom")) ∧
    (erroredRetryW.settle 0).state = AsyncState.mk false none (some "boom") ∧
    (erroredRetryW.settle 0).cache = erroredRetryW.cache ∧
    cacheLookup (erroredRetryW.settle 0).cache "a" = none ∧
    (erroredRetryW.settle 0).lastDeps ≠ some ("a", (erroredRetryW.settle 0).cache) ∧
    ((erroredRetryW.settle 0).request "a" (Except.ok 5)).fetchLog =
      (erroredRetryW.settle 0).fetchLog ++ ["a"] := by
  have h := errored_not_cached_retry erroredRetryW 0
    (Attempt.mk "a" [] false (Except.error "boom")) "boom" rfl rfl
  exact ⟨rfl, h.1, h.2.1, rfl, by decide,
    h.2.2 "a" (Except.ok 5) rfl (by decide)⟩

/-- Claim C8 counterexample: with two fetches in flight, the second
success overwrites the whole cache with its stale closure snapshot: the
entry `("a", 1)` present after step 2 is REMOVED by step 3, refuting the
claim that no operation ever removes an entry. -/
theorem cache_entry_lost_cex :
    cacheLookup lostStep2.cache "a" = some 1 ∧
    cacheLookup lostStep3.cache "a" = none ∧
    cacheLookup lostStep3.cache "b" = some 2 := by
  refine ⟨rfl, rfl, rfl⟩

/-- Claim C8 as amended: the cache starts empty; entries are added only on
successful resolution (requests and error settles leave the cache
untouched); a single successful settle whose closure snapshot is still the
current cache preserves every other key's entry. Entries CAN however be
lost when a success settles with a stale snapshot, because `addToCache`
spreads the captured cache object. -/
theorem cache_frame_props [DecidableEq D] [JsValue D] :
    (Coordinator.init : Coordinator D E).cache = [] ∧
    (∀ (cc : List (String × D)) (k q : String) (d : D), q ≠ k →
      cacheLookup (cacheInsert cc k d) q = cacheLookup cc q) ∧
    (∀ (c : Coordinator D E) (k : String) (o : Except E D),
      (c.request k o).cache = c.cache) ∧
    (∀ (c : Coordinator D E) (i : Nat) (a : Attempt D E) (e : E),
      c.pending.get? i = some a → a.outcome = Except.error e →
      (c.settle i).cache = c.cache) ∧
    (∀ (c : Coordinator D E) (i : Nat) (a : Attempt D E) (d : D) (q : String),
      c.pending.get? i = some a → a.outcome = Except.ok d →
      a.capturedCache = c.cache → q ≠ a.key →
      cacheLookup (c.settle i).cache q = cacheLookup c.cache q) := by
  refine ⟨rfl, ?_, ?_, ?_, ?_⟩
  · intro cc k q d hq
    exact cacheLookup_cacheInsert_ne cc k q d hq
  · intro c k o
    unfold Coordinator.request
    split_ifs with h
    · rfl
    · rcases hl : cacheLookup c.cache k with _ | d
      · rfl
      · by_cases ht : JsValue.truthy d = true <;> simp [ht]
  · intro c i a e hget hout
    rw [settle_error_eq c i a e hget hout]
  · intro c i a d q hget hout hcap hq
    rw [settle_ok_eq c i a d hget hout]
    by_cases hf : a.fromCache
    · simp [hf]
    · simp only [hf, if_false, Bool.false_eq_true]
      rw [hcap]
      exact cacheLookup_cacheInsert_ne c.cache a.key q d hq

/-- Claim C8 witness: every conjunct of the frame theorem at concrete
inputs. -/
theorem cache_frame_props_witness :
    (Coordinator.init : Coordinator Nat String).cache = [] ∧
    (("b" : String) ≠ "a" ∧
      cacheLookup (cacheInsert ([("b", 2)] : List (String × Nat)) "a" 1) "b" =
        cacheLookup [("b", 2)] "b") ∧
    (frameW.request "b" (Except.ok 2)).cache = frameW.cache ∧
    (frameErrW.pending.get? 0 =
        some (Attempt.mk "a" [] false (Except.error "x")) ∧
      (frameErrW.settle 0).cache = frameErrW.cache) ∧
    (frameW.pending.get? 0 = some (Attempt.mk "a" [] false (Except.ok 1)) ∧
      (Attempt.mk "a" ([] : List (String × Nat)) false
          (Except.ok 1 : Except String Nat)).capturedCache = frameW.cache ∧
      ("b" : String) ≠ "a" ∧
      cacheLookup (frameW.settle 0).cache "b" =
        cacheLookup frameW.cache "b") := by
  have h := @cache_frame_props Nat String _ _
  exact ⟨h.1, ⟨by decide, h.2.1 [("b", 2)] "a" "b" 1 (by decide)⟩,
    h.2.2.1 frameW "b" (Except.ok 2),
    ⟨rfl, h.2.2.2.1 frameErrW 0 (Attempt.mk "a" [] false (Except.error "x"))
      "x" rfl rfl⟩,
    ⟨rfl, rfl, by decide,
      h.2.2.2.2 frameW 0 (Attempt.mk "a" [] false (Except.ok 1)) 1 "b"
        rfl rfl rfl (by decide)⟩⟩

/-- Claim C10: `pokemonReducer` and `asyncReducer` are the same function up
to the field renaming `pokemon` into `data`: mapping the renaming over the
result of one gives the other, on success and on the throwing branch alike. -/
theorem reducers_equivalent (s : PokemonState D E) (a : PokemonAction D E) :
    (pokemonReducer s a).map stateOfPokemon =
      asyncReducer (stateOfPokemon s) (actionOfPokemon a) := by
  unfold pokemonReducer asyncReducer stateOfPokemon actionOfPokemon
  split_ifs <;> rfl
